import Mathlib

/-!
Shallow embedding of the `life_quest_backend` authentication and onboarding
core (FastAPI/SQLAlchemy backend), covering:

* `app/core/security.py` — JWT issue/decode and bcrypt password hashing;
* `app/core/exceptions.py` — the domain exception taxonomy;
* `app/repositories/user_repo.py` and `app/repositories/profile_repo.py` —
  the store operations, modelled as pure functions on an explicit store value;
* `app/services/auth_service.py` — register / login / refresh / logout /
  get_current_user / google_login;
* `app/services/profile_service.py` — complete_onboarding.

Conventions of the embedding:

* timestamps are `Nat` seconds; `datetime.now(timezone.utc)` becomes an
  explicit `now : Nat` argument threaded from the caller;
* the database session is an explicit store value (`DB`, `ProfileDB`);
  SQLAlchemy object mutation + flush becomes a keyed row update;
* raising an exception becomes `Except Exc`, with one `Exc` constructor per
  exception class of `app/core/exceptions.py` (plus Python's built-in
  `ValueError`/`TypeError`, which the service layer never catches);
* external libraries (`python-jose`, `bcrypt`, `uuid`) are modelled by small
  executable functions exposing exactly the behaviour the repository relies
  on (deterministic signing, expiry validation, malformed-hash errors,
  UUID-string parsing).
-/

namespace LifeQuest

/-! ### Python value helpers -/

/-- Python `str.lower()` (used by the repository as `email.lower()`). -/
def pyLower (s : String) : String := ⟨s.data.map Char.toLower⟩

/-- Truthiness of a Python `str | None` value: `None` and `""` are falsy. -/
def pyStrTruthy : Option String → Bool
  | none => false
  | some s => s != ""

/-- A JSON-ish claim value as stored in a JWT payload dict. -/
inductive CVal where
  | str (s : String)
  | num (n : Nat)
  | boolean (b : Bool)
deriving DecidableEq, Repr

/-- A Python dict of JWT claims, as an association list. -/
abbrev Claims := List (String × CVal)

/-- Python `dict.get(k)`: the value bound to the key, if present. -/
def dget (d : Claims) (k : String) : Option CVal :=
  (d.find? (fun p => p.1 == k)).map (fun p => p.2)

/-- Python `dict.update(e)` as far as later `get`s can observe it:
keys of `e` override, remaining keys of `d` survive. -/
def dupdate (d e : Claims) : Claims :=
  d.filter (fun p => e.all (fun q => q.1 != p.1)) ++ e

/-- Truthiness of a Python claim value lookup: `None`, `""`, `0`, `False`
are falsy. -/
def cvalTruthy : Option CVal → Bool
  | none => false
  | some (.str s) => s != ""
  | some (.num n) => n != 0
  | some (.boolean b) => b

/-- Decimal digit parsing (accumulator form), used to model Python's
`int(str)` and the decimal tail of a rendered UUID. -/
def digitsToNatAux : List Char → Nat → Option Nat
  | [], acc => some acc
  | c :: cs, acc =>
    if '0' ≤ c ∧ c ≤ '9' then digitsToNatAux cs (acc * 10 + (c.toNat - '0'.toNat))
    else none

/-- `some n` exactly on non-empty all-digit character lists. -/
def digitsToNat? : List Char → Option Nat
  | [] => none
  | c :: cs => digitsToNatAux (c :: cs) 0

/-- Python `int(x)` as applied by `python-jose` to the `exp` claim:
ints pass through, bools coerce, numeric strings parse, anything else
raises (which `jwt.decode` surfaces as a `JWTError`). -/
def expAsInt : CVal → Option Nat
  | .num n => some n
  | .boolean b => some (cond b 1 0)
  | .str s => digitsToNat? s.data

/-! ### UUID model

`uuid.UUID(s)` accepts exactly the strings produced by `str(uuid)` and
raises `ValueError` on anything else.  We model the UUID value space by
`Nat` and its string form by a tagged decimal rendering, keeping the two
essential facts: `str` is injective, and most strings do not parse. -/

/-- Model of `str(uuid)` for the account id `n`. -/
def uuidStr (n : Nat) : String := "uuid-" ++ toString n

/-- Model of `uuid.UUID(s)`: `some id` exactly on well-formed UUID strings. -/
def uuidOfString (s : String) : Option Nat :=
  match s.data with
  | 'u' :: 'u' :: 'i' :: 'd' :: '-' :: ds => digitsToNat? ds
  | _ => none

/-! ### Exceptions (`app/core/exceptions.py` plus Python built-ins) -/

/-- One constructor per exception class the modelled flows can raise.
`PyValueError` / `PyAttributeError` stand for Python's built-in
`ValueError` and `AttributeError`, which the service layer does not
catch. -/
inductive Exc where
  | InvalidCredentialsError (msg : String)
  | TokenExpiredError (msg : String)
  | InvalidTokenError (msg : String)
  | UserNotFoundError (msg : String)
  | UserAlreadyExistsError (msg : String)
  | ProfileNotFoundError (msg : String)
  | PlayerNameTakenError (msg : String)
  | ValidationError (msg : String)
  | NotFoundError (msg : String)
  | PermissionDeniedError (msg : String)
  | GoogleOAuthError (msg : String)
  | PyValueError (msg : String)
  | PyAttributeError (msg : String)
deriving DecidableEq, Repr

/-! ### The `settings` configuration object (`app/config.py`)

`app/config.py` is not part of the sources under verification; the flows
only read the five fields below, so `settings` is passed explicitly. -/

structure Settings where
  JWT_SECRET_KEY : String
  JWT_ALGORITHM : String
  ACCESS_TOKEN_EXPIRE_MINUTES : Nat
  REFRESH_TOKEN_EXPIRE_DAYS : Nat
  GOOGLE_CLIENT_ID : String
deriving DecidableEq, Repr

/-! ### `python-jose` JWT model

A token string is either a well-formed JWT (fully described by its claims,
signing key and algorithm — `jwt.encode` is deterministic, so equality of
`Jwt` values models equality of the encoded strings) or an arbitrary
non-JWT string. -/

inductive Jwt where
  | signed (claims : Claims) (key : String) (alg : String)
  | raw (s : String)
deriving DecidableEq, Repr

/-- `jose.jwt.encode(claims, key, algorithm=alg)`. -/
def jwtEncode (claims : Claims) (key : String) (alg : String) : Jwt :=
  .signed claims key alg

/-- python-jose's `_validate_exp` at time `now`: a missing `exp` claim
passes, a present one must coerce to an integer that has not elapsed. -/
def expValid (now : Nat) (claims : Claims) : Bool :=
  match dget claims "exp" with
  | none => true
  | some v =>
    match expAsInt v with
    | none => false
    | some e => decide (now ≤ e)

/-- python-jose's `_validate_sub`: a present `sub` claim must be a string
(`JWTClaimsError("Subject must be a string.")` otherwise). -/
def subValid (claims : Claims) : Bool :=
  match dget claims "sub" with
  | none => true
  | some (.str _) => true
  | some _ => false

/-- `jose.jwt.decode(token, key, algorithms=[alg])` at time `now`:
verifies the signature (key and algorithm must match) and validates the
claims — `exp` must not have elapsed and `sub`, when present, must be a
string; every failure mode raises a `JWTError`, modelled as `none`. -/
def jwtDecode (now : Nat) (token : Jwt) (key : String) (alg : String) : Option Claims :=
  match token with
  | .raw _ => none
  | .signed claims k a =>
    if k == key && a == alg && expValid now claims && subValid claims then some claims
    else none

/-! ### bcrypt model

`bcrypt.hashpw` produces strings carrying the salt (which itself carries
the `"$2b$..."` version/cost header); `bcrypt.checkpw` recomputes the hash
from the embedded salt and compares, and raises `ValueError` (`"Invalid
salt"`) when the stored value is not a well-formed bcrypt hash.  The
digest is modelled as an injective pairing of salt and password. -/

/-- Model of `bcrypt.gensalt()`; the randomness is an explicit argument. -/
def bcryptGensalt (entropy : Nat) : String := "$2b$12$" ++ toString entropy

/-- Model of `bcrypt.hashpw(password, salt)`. -/
def bcryptHashpw (password : String) (salt : String) : String :=
  salt ++ "." ++ password

/-- A stored value parses as a bcrypt hash iff it carries the `$2b$` header. -/
def bcryptWellformed (hashed : String) : Bool :=
  match hashed.data with
  | '$' :: '2' :: 'b' :: '$' :: _ => true
  | _ => false

/-- The salt component embedded in a stored bcrypt hash. -/
def bcryptSaltOf (hashed : String) : String :=
  ⟨hashed.data.takeWhile (fun c => c != '.')⟩

/-- Model of `bcrypt.checkpw(password, hashed)`: raises `ValueError` on a
malformed stored hash, otherwise compares the recomputed digest. -/
def bcryptCheckpw (password hashed : String) : Except Exc Bool :=
  if bcryptWellformed hashed then
    .ok (hashed == bcryptHashpw password (bcryptSaltOf hashed))
  else
    .error (.PyValueError "Invalid salt")

/-! ### `app/core/security.py` -/

/-- `verify_password(plain_password, hashed_password)`: a direct call to
`bcrypt.checkpw` with no exception handling. -/
def verify_password (plain_password : String) (hashed_password : String) :
    Except Exc Bool :=
  bcryptCheckpw plain_password hashed_password

/-- `hash_password(password)`: `bcrypt.hashpw` under a fresh salt; the
salt entropy is an explicit argument. -/
def hash_password (password : String) (entropy : Nat) : String :=
  bcryptHashpw password (bcryptGensalt entropy)

/-- `create_access_token(subject, expires_delta, extra_claims)`; `subject`
arrives already rendered by `str(...)`, times are in seconds. -/
def create_access_token (settings : Settings) (now : Nat) (subject : String)
    (expires_delta : Option Nat) (extra_claims : Option Claims) : Jwt :=
  let expire : Nat :=
    match expires_delta with
    | some d => now + d
    | none => now + settings.ACCESS_TOKEN_EXPIRE_MINUTES * 60
  let to_encode : Claims :=
    [("sub", .str subject), ("exp", .num expire), ("type", .str "access")]
  let to_encode : Claims :=
    match extra_claims with
    | some extra => dupdate to_encode extra
    | none => to_encode
  jwtEncode to_encode settings.JWT_SECRET_KEY settings.JWT_ALGORITHM

/-- `create_refresh_token(subject, expires_delta)`. -/
def create_refresh_token (settings : Settings) (now : Nat) (subject : String)
    (expires_delta : Option Nat) : Jwt :=
  let expire : Nat :=
    match expires_delta with
    | some d => now + d
    | none => now + settings.REFRESH_TOKEN_EXPIRE_DAYS * 86400
  let to_encode : Claims :=
    [("sub", .str subject), ("exp", .num expire), ("type", .str "refresh")]
  jwtEncode to_encode settings.JWT_SECRET_KEY settings.JWT_ALGORITHM

/-- `decode_token(token)`: `jwt.decode` with the configured key and
algorithm; any `JWTError` collapses to `None`. -/
def decode_token (settings : Settings) (now : Nat) (token : Jwt) : Option Claims :=
  jwtDecode now token settings.JWT_SECRET_KEY settings.JWT_ALGORITHM

/-- `get_token_subject(token)`: decode, then extract the `sub` claim. -/
def get_token_subject (settings : Settings) (now : Nat) (token : Jwt) :
    Option CVal :=
  match decode_token settings now token with
  | none => none
  | some payload => dget payload "sub"

/-! ### `app/models/user.py` rows and the account store

Row ids (`UUIDMixin`) are modelled by `Nat` allocated from a store-level
`next_id` counter; `str(uuid)` of a row id is `uuidStr id`.  A token
column of type `String(255)` holding a JWT string is typed `Jwt` (see the
`Jwt` model: equality of `Jwt` values models string equality). -/

structure User where
  id : Nat
  email : String
  password_hash : Option String
  email_verified : Bool
  is_active : Bool
  last_login_at : Option Nat
deriving DecidableEq, Repr

/-- The `provider_data` dict built by `google_login`. -/
structure ProviderData where
  picture : Option String
  given_name : Option String
  family_name : Option String
  locale : Option String
deriving DecidableEq, Repr

structure AuthProvider where
  id : Nat
  user_id : Nat
  provider : String
  provider_user_id : String
  access_token : Option String
  refresh_token : Option String
  token_expires_at : Option Nat
  provider_data : Option ProviderData
deriving DecidableEq, Repr

structure UserSession where
  id : Nat
  user_id : Nat
  session_token : Jwt
  device_info : Option String
  ip_address : Option String
  expires_at : Nat
  created_at : Nat
deriving DecidableEq, Repr

/-- The account store: the three tables touched by `UserRepository`,
plus the id allocator. -/
structure DB where
  next_id : Nat
  users : List User
  auth_providers : List AuthProvider
  sessions : List UserSession
deriving DecidableEq, Repr

/-! ### `app/repositories/user_repo.py`

`select(...).where(...)` + `scalar_one_or_none()` becomes `List.find?`;
the store's unique constraints (`users.email`, `user_sessions.
session_token`) guarantee at most one match, and appear as explicit
`Nodup` hypotheses in the theorems that need them. -/

/-- `UserRepository.get_by_id`. -/
def UserRepository.get_by_id (db : DB) (user_id : Nat) : Option User :=
  db.users.find? (fun u => u.id == user_id)

/-- `UserRepository.get_by_email`: compares against `email.lower()`. -/
def UserRepository.get_by_email (db : DB) (email : String) : Option User :=
  db.users.find? (fun u => u.email == pyLower email)

/-- `UserRepository.create`: inserts a user row with a lowercased email,
`is_active=True`. -/
def UserRepository.create (db : DB) (email : String)
    (password_hash : Option String) (email_verified : Bool) : DB × User :=
  let user : User :=
    { id := db.next_id
      email := pyLower email
      password_hash := password_hash
      email_verified := email_verified
      is_active := true
      last_login_at := none }
  ({ db with next_id := db.next_id + 1, users := db.users ++ [user] }, user)

/-- `UserRepository.update_last_login`: sets `last_login_at` on the row. -/
def UserRepository.update_last_login (db : DB) (user : User) (now : Nat) : DB :=
  { db with
    users := db.users.map (fun u =>
      if u.id == user.id then { u with last_login_at := some now } else u) }

/-- `UserRepository.get_auth_provider`: lookup by (provider, provider_user_id). -/
def UserRepository.get_auth_provider (db : DB) (provider : String)
    (provider_user_id : String) : Option AuthProvider :=
  db.auth_providers.find? (fun ap =>
    ap.provider == provider && ap.provider_user_id == provider_user_id)

/-- `UserRepository.create_auth_provider`. -/
def UserRepository.create_auth_provider (db : DB) (user_id : Nat)
    (provider : String) (provider_user_id : String)
    (access_token refresh_token : Option String)
    (token_expires_at : Option Nat) (provider_data : Option ProviderData) :
    DB × AuthProvider :=
  let ap : AuthProvider :=
    { id := db.next_id
      user_id := user_id
      provider := provider
      provider_user_id := provider_user_id
      access_token := access_token
      refresh_token := refresh_token
      token_expires_at := token_expires_at
      provider_data := provider_data }
  ({ db with next_id := db.next_id + 1, auth_providers := db.auth_providers ++ [ap] }, ap)

/-- `UserRepository.create_session`. -/
def UserRepository.create_session (db : DB) (user_id : Nat)
    (session_token : Jwt) (expires_at : Nat)
    (device_info ip_address : Option String) (now : Nat) : DB × UserSession :=
  let session : UserSession :=
    { id := db.next_id
      user_id := user_id
      session_token := session_token
      device_info := device_info
      ip_address := ip_address
      expires_at := expires_at
      created_at := now }
  ({ db with next_id := db.next_id + 1, sessions := db.sessions ++ [session] }, session)

/-- `UserRepository.get_session_by_token`. -/
def UserRepository.get_session_by_token (db : DB) (session_token : Jwt) :
    Option UserSession :=
  db.sessions.find? (fun s => s.session_token == session_token)

/-- `UserRepository.delete_session`: deletes the row (keyed by primary key). -/
def UserRepository.delete_session (db : DB) (session : UserSession) : DB :=
  { db with sessions := db.sessions.filter (fun s => s.id != session.id) }

/-- `UserRepository.delete_all_user_sessions`. -/
def UserRepository.delete_all_user_sessions (db : DB) (user_id : Nat) : DB :=
  { db with sessions := db.sessions.filter (fun s => s.user_id != user_id) }

/-! ### `app/services/auth_service.py` -/

/-- `TokenResponse` (`app/schemas/auth.py`): the minted pair plus the
`is_new_user` flag (`token_type` is the constant `"bearer"`). -/
structure TokenResponse where
  access_token : Jwt
  refresh_token : Jwt
  is_new_user : Bool
deriving DecidableEq, Repr

/-- `uuid.UUID(x)` applied to a decoded claim value: parses well-formed
UUID strings and raises `ValueError` on other strings; neither error is
caught by the service layer.  On a non-string value `UUID(...)` raises
`AttributeError` (its `hex` argument has no `.replace`) — a branch the
flows never reach, since `jwt.decode` already rejects tokens whose `sub`
claim is not a string. -/
def UUIDOfVal : CVal → Except Exc Nat
  | .str s =>
    match uuidOfString s with
    | some n => .ok n
    | none => .error (.PyValueError "badly formed hexadecimal UUID string")
  | _ => .error (.PyAttributeError "object has no attribute 'replace'")

/-- `AuthService._create_tokens_and_session`: mints the pair for
`subject=user.id` (rendered via `str(...)`) and inserts the session row
keyed by the refresh token. -/
def AuthService.create_tokens_and_session (settings : Settings) (now : Nat)
    (db : DB) (user : User) (device_info ip_address : Option String) :
    DB × Jwt × Jwt :=
  let access_token := create_access_token settings now (uuidStr user.id) none none
  let refresh_token := create_refresh_token settings now (uuidStr user.id) none
  let expires_at := now + settings.REFRESH_TOKEN_EXPIRE_DAYS * 86400
  let res := UserRepository.create_session db user.id refresh_token expires_at
    device_info ip_address now
  (res.1, access_token, refresh_token)

/-- `AuthService.register`: rejects an already-present email, otherwise
creates the account (`email_verified=False`), mints tokens + session, and
returns `is_new_user=True`.  `entropy` feeds the bcrypt salt. -/
def AuthService.register (settings : Settings) (now : Nat) (db : DB)
    (email password : String) (entropy : Nat)
    (device_info ip_address : Option String) :
    Except Exc (DB × TokenResponse) :=
  match UserRepository.get_by_email db email with
  | some _ => .error (.UserAlreadyExistsError "User with this email already exists")
  | none =>
    let password_hash := hash_password password entropy
    let res := UserRepository.create db email (some password_hash) false
    let db := res.1
    let user := res.2
    let res := AuthService.create_tokens_and_session settings now db user
      device_info ip_address
    .ok (res.1, { access_token := res.2.1, refresh_token := res.2.2, is_new_user := true })

/-- `AuthService.login`: absent account, falsy stored hash, mismatching
password, and inactive account all reject; on success updates
`last_login_at` and mints a fresh pair + session.  A malformed stored
hash propagates `bcrypt`'s `ValueError`. -/
def AuthService.login (settings : Settings) (now : Nat) (db : DB)
    (email password : String) (device_info ip_address : Option String) :
    Except Exc (DB × TokenResponse) :=
  match UserRepository.get_by_email db email with
  | none => .error (.InvalidCredentialsError "Invalid email or password")
  | some user =>
    if !pyStrTruthy user.password_hash then
      .error (.InvalidCredentialsError "Invalid email or password")
    else
      match verify_password password (user.password_hash.getD "") with
      | .error e => .error e
      | .ok verified =>
        if !verified then
          .error (.InvalidCredentialsError "Invalid email or password")
        else if !user.is_active then
          .error (.InvalidCredentialsError "Account is deactivated")
        else
          let db := UserRepository.update_last_login db user now
          let res := AuthService.create_tokens_and_session settings now db user
            device_info ip_address
          .ok (res.1, { access_token := res.2.1, refresh_token := res.2.2, is_new_user := false })

/-- `AuthService.refresh_tokens`: decode, check `type == "refresh"`, check
the subject, resolve an active account, then mint a fresh pair and a new
session row.  (`if not payload` in the source also rejects an empty
claims dict.) -/
def AuthService.refresh_tokens (settings : Settings) (now : Nat) (db : DB)
    (refresh_token : Jwt) (device_info ip_address : Option String) :
    Except Exc (DB × TokenResponse) :=
  match decode_token settings now refresh_token with
  | none => .error (.InvalidTokenError "Invalid token")
  | some payload =>
    if payload.isEmpty then .error (.InvalidTokenError "Invalid token")
    else if dget payload "type" != some (.str "refresh") then
      .error (.InvalidTokenError "Invalid token type")
    else if !cvalTruthy (dget payload "sub") then
      .error (.InvalidTokenError "Invalid token")
    else
      match UUIDOfVal ((dget payload "sub").getD (.str "")) with
      | .error e => .error e
      | .ok uid =>
        match UserRepository.get_by_id db uid with
        | none => .error (.InvalidTokenError "Invalid token")
        | some user =>
          if !user.is_active then .error (.InvalidTokenError "Invalid token")
          else
            let res := AuthService.create_tokens_and_session settings now db user
              device_info ip_address
            .ok (res.1, { access_token := res.2.1, refresh_token := res.2.2, is_new_user := false })

/-- `AuthService.logout`: delete the session keyed by the presented token
if it exists; otherwise do nothing.  Total — no failure path. -/
def AuthService.logout (db : DB) (session_token : Jwt) : DB :=
  match UserRepository.get_session_by_token db session_token with
  | none => db
  | some session => UserRepository.delete_session db session

/-- `AuthService.logout_all`. -/
def AuthService.logout_all (db : DB) (user_id : Nat) : DB :=
  UserRepository.delete_all_user_sessions db user_id

/-- `AuthService.get_current_user`: decode, check `type == "access"`,
check the subject, resolve the account, reject a missing or deactivated
account. -/
def AuthService.get_current_user (settings : Settings) (now : Nat) (db : DB)
    (token : Jwt) : Except Exc User :=
  match decode_token settings now token with
  | none => .error (.InvalidTokenError "Invalid token")
  | some payload =>
    if payload.isEmpty then .error (.InvalidTokenError "Invalid token")
    else if dget payload "type" != some (.str "access") then
      .error (.InvalidTokenError "Invalid token type")
    else if !cvalTruthy (dget payload "sub") then
      .error (.InvalidTokenError "Invalid token")
    else
      match UUIDOfVal ((dget payload "sub").getD (.str "")) with
      | .error e => .error e
      | .ok uid =>
        match UserRepository.get_by_id db uid with
        | none => .error (.UserNotFoundError "User not found")
        | some user =>
          if !user.is_active then .error (.InvalidTokenError "Account is deactivated")
          else .ok user

/-- The dict returned by `verify_google_token` (`app/core/oauth.py`): all
eight keys are always present, with possibly-`None` values except
`email_verified`, which defaults to `False`. -/
structure GoogleUser where
  email : Option String
  sub : Option String
  name : Option String
  picture : Option String
  given_name : Option String
  family_name : Option String
  email_verified : Bool
  locale : Option String
deriving DecidableEq, Repr

/-- `AuthService.google_login`, from the point where
`verify_google_token` has already returned `google_user` (a verification
failure raises `GoogleOAuthError` before this logic runs and touches no
state).  Links or creates the account, updates `last_login_at`, and mints
a fresh pair + session; no `is_active` check appears anywhere. -/
def AuthService.google_login (settings : Settings) (now : Nat) (db : DB)
    (google_user : GoogleUser) (device_info ip_address : Option String) :
    Except Exc (DB × TokenResponse) :=
  if !pyStrTruthy google_user.email || !pyStrTruthy google_user.sub then
    .error (.InvalidCredentialsError "Invalid Google token: missing email or user ID")
  else
    let email := google_user.email.getD ""
    let google_user_id := google_user.sub.getD ""
    let provider_data : ProviderData :=
      { picture := google_user.picture
        given_name := google_user.given_name
        family_name := google_user.family_name
        locale := google_user.locale }
    let resolved : DB × User × Bool :=
      match UserRepository.get_by_email db email with
      | some user =>
        match UserRepository.get_auth_provider db "google" google_user_id with
        | some _ => (db, user, false)
        | none =>
          let res := UserRepository.create_auth_provider db user.id "google"
            google_user_id none none none (some provider_data)
          (res.1, user, false)
      | none =>
        let res := UserRepository.create db email none google_user.email_verified
        let db := res.1
        let user := res.2
        let res := UserRepository.create_auth_provider db user.id "google"
          google_user_id none none none (some provider_data)
        (res.1, user, true)
    let db := resolved.1
    let user := resolved.2.1
    let is_new_user := resolved.2.2
    let db := UserRepository.update_last_login db user now
    let res := AuthService.create_tokens_and_session settings now db user
      device_info ip_address
    .ok (res.1, { access_token := res.2.1, refresh_token := res.2.2, is_new_user := is_new_user })

/-! ### `app/models/profile.py`, `app/models/life_area.py` and the profile store -/

structure Archetype where
  id : Nat
  name : String
  description : Option String
deriving DecidableEq, Repr

structure LifeMode where
  id : Nat
  name : String
  description : Option String
deriving DecidableEq, Repr

structure LifeArea where
  id : Nat
  name : String
  emoji : Option String
  description : Option String
  is_active : Bool
deriving DecidableEq, Repr

structure UserLifeArea where
  id : Nat
  user_id : Nat
  life_area_id : Nat
  priority : Nat
  selected_at : Nat
deriving DecidableEq, Repr

structure UserProfile where
  id : Nat
  user_id : Nat
  player_name : String
  archetype_id : Option Nat
  life_mode_id : Option Nat
  level : Nat
  total_core_xp : Nat
  avatar_url : Option String
  bio : Option String
  timezone : String
  identity_locked_until : Option Nat
  onboarding_completed : Bool
deriving DecidableEq, Repr

/-- The profile store: the tables touched by `ProfileRepository`,
plus the id allocator. -/
structure ProfileDB where
  next_id : Nat
  profiles : List UserProfile
  archetypes : List Archetype
  life_modes : List LifeMode
  life_areas : List LifeArea
  user_life_areas : List UserLifeArea
deriving DecidableEq, Repr

/-! ### `app/repositories/profile_repo.py` -/

/-- SQLAlchemy object mutation followed by `flush()`: replace the row
with the mutated object, keyed by primary key. -/
def ProfileDB.writeProfile (pdb : ProfileDB) (p : UserProfile) : ProfileDB :=
  { pdb with profiles := pdb.profiles.map (fun q => if q.id == p.id then p else q) }

/-- `ProfileRepository.get_by_user_id`. -/
def ProfileRepository.get_by_user_id (pdb : ProfileDB) (user_id : Nat) :
    Option UserProfile :=
  pdb.profiles.find? (fun p => p.user_id == user_id)

/-- `ProfileRepository.get_by_player_name`. -/
def ProfileRepository.get_by_player_name (pdb : ProfileDB) (player_name : String) :
    Option UserProfile :=
  pdb.profiles.find? (fun p => p.player_name == player_name)

/-- `ProfileRepository.create`: inserts a fresh profile row
(`level=1`, `total_core_xp=0`, `onboarding_completed=False`). -/
def ProfileRepository.create (pdb : ProfileDB) (user_id : Nat)
    (player_name : String) (archetype_id life_mode_id : Option Nat)
    (avatar_url bio : Option String) (timezone_str : String) :
    ProfileDB × UserProfile :=
  let profile : UserProfile :=
    { id := pdb.next_id
      user_id := user_id
      player_name := player_name
      archetype_id := archetype_id
      life_mode_id := life_mode_id
      level := 1
      total_core_xp := 0
      avatar_url := avatar_url
      bio := bio
      timezone := timezone_str
      identity_locked_until := none
      onboarding_completed := false }
  ({ pdb with next_id := pdb.next_id + 1, profiles := pdb.profiles ++ [profile] }, profile)

/-- `ProfileRepository.update`: each optional argument overwrites its
field only when it `is not None`. -/
def ProfileRepository.update (pdb : ProfileDB) (profile : UserProfile)
    (player_name avatar_url bio timezone_str : Option String) :
    ProfileDB × UserProfile :=
  let profile : UserProfile :=
    { profile with
      player_name := player_name.getD profile.player_name
      avatar_url := match avatar_url with | some v => some v | none => profile.avatar_url
      bio := match bio with | some v => some v | none => profile.bio
      timezone := timezone_str.getD profile.timezone }
  (pdb.writeProfile profile, profile)

/-- `ProfileRepository.mark_onboarding_complete`: sets
`onboarding_completed = True` and `identity_locked_until = now + 30 days`. -/
def ProfileRepository.mark_onboarding_complete (pdb : ProfileDB)
    (profile : UserProfile) (now : Nat) : ProfileDB × UserProfile :=
  let profile : UserProfile :=
    { profile with
      onboarding_completed := true
      identity_locked_until := some (now + 30 * 86400) }
  (pdb.writeProfile profile, profile)

/-- `ProfileRepository.get_archetype_by_id`. -/
def ProfileRepository.get_archetype_by_id (pdb : ProfileDB) (archetype_id : Nat) :
    Option Archetype :=
  pdb.archetypes.find? (fun a => a.id == archetype_id)

/-- `ProfileRepository.get_life_mode_by_id`. -/
def ProfileRepository.get_life_mode_by_id (pdb : ProfileDB) (life_mode_id : Nat) :
    Option LifeMode :=
  pdb.life_modes.find? (fun m => m.id == life_mode_id)

/-- `ProfileRepository.get_life_area_by_id`. -/
def ProfileRepository.get_life_area_by_id (pdb : ProfileDB) (life_area_id : Nat) :
    Option LifeArea :=
  pdb.life_areas.find? (fun a => a.id == life_area_id)

/-- `ProfileRepository.get_user_life_areas` (ordering by priority is
irrelevant to the modelled flow, which only deletes the result). -/
def ProfileRepository.get_user_life_areas (pdb : ProfileDB) (user_id : Nat) :
    List UserLifeArea :=
  pdb.user_life_areas.filter (fun ula => ula.user_id == user_id)

/-- `ProfileRepository.set_user_life_areas`: deletes the user's existing
selections and inserts the new ones with priorities 1, 2, …. -/
def ProfileRepository.set_user_life_areas (pdb : ProfileDB) (user_id : Nat)
    (life_area_ids : List Nat) (now : Nat) : ProfileDB :=
  let pdb := { pdb with
    user_life_areas := pdb.user_life_areas.filter (fun ula => ula.user_id != user_id) }
  let rows := life_area_ids.enum.map (fun p =>
    ({ id := pdb.next_id + p.1
       user_id := user_id
       life_area_id := p.2
       priority := p.1 + 1
       selected_at := now } : UserLifeArea))
  { pdb with
    next_id := pdb.next_id + life_area_ids.length
    user_life_areas := pdb.user_life_areas ++ rows }

/-! ### `app/services/profile_service.py` (`complete_onboarding`) -/

/-- `OnboardingRequest` (`app/schemas/profile.py`). -/
structure OnboardingRequest where
  player_name : String
  archetype_id : Nat
  life_mode_id : Nat
  life_area_ids : List Nat
  avatar_url : Option String
  bio : Option String
  timezone : String
deriving DecidableEq, Repr

/-- `OnboardingResponse` (`app/schemas/profile.py`). -/
structure OnboardingResponse where
  profile : UserProfile
  message : String
deriving DecidableEq, Repr

/-- The `for life_area_id in data.life_area_ids: …` validation loop of
`complete_onboarding`. -/
def ProfileService.validate_life_areas (pdb : ProfileDB) :
    List Nat → Except Exc Unit
  | [] => .ok ()
  | life_area_id :: rest =>
    match ProfileRepository.get_life_area_by_id pdb life_area_id with
    | none => .error (.ValidationError ("Invalid life area ID: " ++ toString life_area_id))
    | some _ => ProfileService.validate_life_areas pdb rest

/-- Continuation of `complete_onboarding` after the already-completed and
player-name checks (split out of the straight-line source only to keep
the Lean definition readable). -/
def ProfileService.complete_onboarding_validated (pdb : ProfileDB) (user_id : Nat)
    (data : OnboardingRequest) (now : Nat) (existing_profile : Option UserProfile) :
    Except Exc (ProfileDB × OnboardingResponse) :=
  match ProfileRepository.get_archetype_by_id pdb data.archetype_id with
  | none => .error (.ValidationError "Invalid archetype ID")
  | some _ =>
    match ProfileRepository.get_life_mode_by_id pdb data.life_mode_id with
    | none => .error (.ValidationError "Invalid life mode ID")
    | some _ =>
      match ProfileService.validate_life_areas pdb data.life_area_ids with
      | .error e => .error e
      | .ok _ =>
        let step : ProfileDB × UserProfile :=
          match existing_profile with
          | some existing =>
            let res := ProfileRepository.update pdb existing
              (some data.player_name) data.avatar_url data.bio (some data.timezone)
            let profile : UserProfile :=
              { res.2 with
                archetype_id := some data.archetype_id
                life_mode_id := some data.life_mode_id }
            (res.1.writeProfile profile, profile)
          | none =>
            ProfileRepository.create pdb user_id data.player_name
              (some data.archetype_id) (some data.life_mode_id)
              data.avatar_url data.bio data.timezone
        let pdb := ProfileRepository.set_user_life_areas step.1 user_id
          data.life_area_ids now
        let res := ProfileRepository.mark_onboarding_complete pdb step.2 now
        let pdb := res.1
        match ProfileRepository.get_by_user_id pdb user_id with
        | some profile =>
          .ok (pdb,
            { profile := profile
              message := "Onboarding completed successfully! Your identity is locked for 30 days." })
        | none => .error (.PyValueError "profile reload returned None")

/-- `ProfileService.complete_onboarding`: rejects a second completion,
validates player name / archetype / life mode / life areas, creates or
updates the profile, replaces the life-area selections, marks onboarding
complete (identity lock), and reloads the profile for the response. -/
def ProfileService.complete_onboarding (pdb : ProfileDB) (user_id : Nat)
    (data : OnboardingRequest) (now : Nat) :
    Except Exc (ProfileDB × OnboardingResponse) :=
  let existing_profile := ProfileRepository.get_by_user_id pdb user_id
  if (existing_profile.map (fun p => p.onboarding_completed)).getD false then
    .error (.ValidationError "Onboarding already completed")
  else
    match ProfileRepository.get_by_player_name pdb data.player_name with
    | some existing_name =>
      if existing_name.user_id != user_id then
        .error (.PlayerNameTakenError "This player name is already taken")
      else
        ProfileService.complete_onboarding_validated pdb user_id data now existing_profile
    | none =>
      ProfileService.complete_onboarding_validated pdb user_id data now existing_profile

/-! ## Helper lemmas -/

/-- A claims dict with a bound key is non-empty. -/
theorem dget_isEmpty_false {p : Claims} {k : String} {v : CVal}
    (h : dget p k = some v) : p.isEmpty = false := by
  cases p with
  | nil => simp [dget] at h
  | cons a l => rfl

/-- After `update_last_login`, looking the user up by id yields a row
whose `last_login_at` is `now` (no uniqueness assumption needed: every
row with the user's id is stamped). -/
theorem get_by_id_update_last_login (db : DB) (user : User) (now : Nat)
    (h : user ∈ db.users) :
    ∃ u', UserRepository.get_by_id (UserRepository.update_last_login db user now)
        user.id = some u' ∧
      u'.last_login_at = some now := by
  unfold UserRepository.get_by_id UserRepository.update_last_login
  have hsome : ((db.users.map (fun u =>
      if u.id == user.id then { u with last_login_at := some now } else u)).find?
      (fun u => u.id == user.id)).isSome := by
    rw [List.find?_isSome]
    refine ⟨_, List.mem_map_of_mem _ h, ?_⟩
    simp
  obtain ⟨u', hu'⟩ := Option.isSome_iff_exists.mp hsome
  refine ⟨u', hu', ?_⟩
  have hmem := List.mem_of_find?_eq_some hu'
  have hid := List.find?_some hu'
  obtain ⟨y, hy, hgy⟩ := List.mem_map.mp hmem
  by_cases hyid : (y.id == user.id) = true
  · rw [← hgy]
    simp [hyid]
  · exfalso
    rw [← hgy] at hid
    simp only [hyid] at hid
    simp at hid
    simp at hyid
    exact hyid hid

/-- Mapping a function over a list that fixes every element except the one
`find?` returns (whose image still satisfies the predicate) moves `find?`
to that image. -/
theorem find?_map_update {α : Type} (l : List α) (pred : α → Bool) (x : α)
    (g : α → α) (hfind : l.find? pred = some x) (hkeep : pred (g x) = true)
    (hother : ∀ y ∈ l, y ≠ x → g y = y) :
    (l.map g).find? pred = some (g x) := by
  induction l with
  | nil => simp at hfind
  | cons a l ih =>
    cases ha : pred a with
    | true =>
      have hax : a = x := by
        rw [List.find?_cons_of_pos _ ha] at hfind
        exact Option.some.inj hfind
      subst hax
      rw [List.map_cons, List.find?_cons_of_pos _ hkeep]
    | false =>
      have hfind' : l.find? pred = some x := by
        rwa [List.find?_cons_of_neg _ (by simp [ha])] at hfind
      have hax : a ≠ x := by
        intro h
        have hx := List.find?_some hfind'
        rw [← h] at hx
        rw [hx] at ha
        cases ha
      have hga : g a = a := hother a (List.mem_cons_self a l) hax
      rw [List.map_cons, List.find?_cons_of_neg _ (by simp [hga, ha])]
      exact ih hfind' (fun y hy hne => hother y (List.mem_cons_of_mem a hy) hne)

/-- `writeProfile` never changes the multiset of row ids. -/
theorem writeProfile_map_id (pdb : ProfileDB) (p : UserProfile) :
    (pdb.writeProfile p).profiles.map (fun q => q.id) =
      pdb.profiles.map (fun q => q.id) := by
  unfold ProfileDB.writeProfile
  rw [List.map_map]
  apply List.map_congr_left
  intro q hq
  by_cases h : (q.id == p.id) = true
  · simp only [Function.comp_apply, h, if_true]
    exact (beq_iff_eq.mp h).symm
  · have h' : q.id ≠ p.id := by simpa using h
    simp [Function.comp_apply, h']

/-- Under the primary-key uniqueness invariant, writing back a mutated
profile row re-points the by-user lookup at the mutated row. -/
theorem get_by_user_id_writeProfile (pdb : ProfileDB) (uid : Nat)
    (x p' : UserProfile)
    (hnd : (pdb.profiles.map (fun q => q.id)).Nodup)
    (hfind : ProfileRepository.get_by_user_id pdb uid = some x)
    (hid : p'.id = x.id) (huid : p'.user_id = uid) :
    ProfileRepository.get_by_user_id (pdb.writeProfile p') uid = some p' := by
  have hfind' : pdb.profiles.find? (fun q => q.user_id == uid) = some x := hfind
  have hgx : (fun q => if q.id == p'.id then p' else q) x = p' := by
    simp [hid]
  have hmain := find?_map_update pdb.profiles (fun q => q.user_id == uid) x
    (fun q => if q.id == p'.id then p' else q) hfind'
    (by rw [hgx]; simp [huid])
    (by
      intro y hy hne
      have hxmem : x ∈ pdb.profiles := List.mem_of_find?_eq_some hfind'
      by_cases hb : (y.id == p'.id) = true
      · exact absurd (List.inj_on_of_nodup_map hnd hy hxmem
          (by rw [beq_iff_eq.mp hb, hid])) hne
      · simp [hb])
  rw [hgx] at hmain
  exact hmain

/-! ## Shared demo values for concrete instances -/

/-- A concrete configuration used by the concrete instances below. -/
def Sdemo : Settings :=
  { JWT_SECRET_KEY := "k"
    JWT_ALGORITHM := "HS256"
    ACCESS_TOKEN_EXPIRE_MINUTES := 15
    REFRESH_TOKEN_EXPIRE_DAYS := 30
    GOOGLE_CLIENT_ID := "cid" }

/-- An empty account store. -/
def DBempty : DB := { next_id := 0, users := [], auth_providers := [], sessions := [] }

/-! ## Claims -/

/-- **C5** (code bug evidence). The spec requires `verify_password` to be
total and non-throwing — "returns false on any mismatch, never throws on
malformed hash".  The source calls `bcrypt.checkpw` with no exception
handling, so a stored value that is not a well-formed bcrypt hash raises
`ValueError` instead of returning `false`: at plain password `"x"` and
stored hash `"nothash"` the call raises `ValueError("Invalid salt")`. -/
theorem C5_verify_password_raises_on_malformed_hash :
    verify_password "x" "nothash" = .error (.PyValueError "Invalid salt") := rfl

/-- **C2**. Round-trip of token issuance and decoding: decoding a token
produced by `create_access_token(id)` any time `now'` within the
configured TTL succeeds and yields claims with subject `str(id)` and type
`"access"`; likewise for `create_refresh_token(id)` and `"refresh"`. -/
theorem C2_token_round_trip (settings : Settings) (now now' id : Nat) :
    (now' ≤ now + settings.ACCESS_TOKEN_EXPIRE_MINUTES * 60 →
      ∃ payload, decode_token settings now'
          (create_access_token settings now (uuidStr id) none none) = some payload ∧
        dget payload "sub" = some (.str (uuidStr id)) ∧
        dget payload "type" = some (.str "access")) ∧
    (now' ≤ now + settings.REFRESH_TOKEN_EXPIRE_DAYS * 86400 →
      ∃ payload, decode_token settings now'
          (create_refresh_token settings now (uuidStr id) none) = some payload ∧
        dget payload "sub" = some (.str (uuidStr id)) ∧
        dget payload "type" = some (.str "refresh")) := by
  constructor <;> intro h
  · refine ⟨[("sub", .str (uuidStr id)),
      ("exp", .num (now + settings.ACCESS_TOKEN_EXPIRE_MINUTES * 60)),
      ("type", .str "access")], ?_, ?_, ?_⟩ <;>
      simp [create_access_token, decode_token, jwtDecode, expValid, subValid,
        jwtEncode, dget, List.find?, expAsInt, h]
  · refine ⟨[("sub", .str (uuidStr id)),
      ("exp", .num (now + settings.REFRESH_TOKEN_EXPIRE_DAYS * 86400)),
      ("type", .str "refresh")], ?_, ?_, ?_⟩ <;>
      simp [create_refresh_token, decode_token, jwtDecode, expValid, subValid,
        jwtEncode, dget, List.find?, expAsInt, h]

/-- **C2 witness**: a concrete round-trip at `id = 3`, issued at time 0
and decoded at time 60. -/
theorem C2_token_round_trip_witness :
    (∃ payload, decode_token Sdemo 60
        (create_access_token Sdemo 0 (uuidStr 3) none none) = some payload ∧
      dget payload "sub" = some (.str (uuidStr 3)) ∧
      dget payload "type" = some (.str "access")) ∧
    (∃ payload, decode_token Sdemo 60
        (create_refresh_token Sdemo 0 (uuidStr 3) none) = some payload ∧
      dget payload "sub" = some (.str (uuidStr 3)) ∧
      dget payload "type" = some (.str "refresh")) :=
  ⟨(C2_token_round_trip Sdemo 0 60 3).1 (by decide),
   (C2_token_round_trip Sdemo 0 60 3).2 (by decide)⟩

/-- **C1**. Token type cross-use is prevented at the consuming flows: for
every token whose decoded `type` claim is not `"refresh"`,
`refresh_tokens` raises `InvalidTokenError` (the flow returns no store,
so no session row is created); and for every token whose decoded `type`
claim is not `"access"` — in particular every refresh token —
`get_current_user` raises `InvalidTokenError` and never returns a user. -/
theorem C1_token_type_cross_use_rejected (settings : Settings) (now : Nat) (db : DB)
    (token : Jwt) (device_info ip_address : Option String) (payload : Claims)
    (hdec : decode_token settings now token = some payload) :
    (dget payload "type" ≠ some (.str "refresh") →
      ∃ m, AuthService.refresh_tokens settings now db token device_info ip_address =
        .error (.InvalidTokenError m)) ∧
    (dget payload "type" ≠ some (.str "access") →
      ∃ m, AuthService.get_current_user settings now db token =
        .error (.InvalidTokenError m)) := by
  constructor <;> intro hty
  · unfold AuthService.refresh_tokens
    rw [hdec]
    by_cases hemp : payload.isEmpty
    · exact ⟨"Invalid token", by simp [hemp]⟩
    · exact ⟨"Invalid token type", by simp [hemp, hty]⟩
  · unfold AuthService.get_current_user
    rw [hdec]
    by_cases hemp : payload.isEmpty
    · exact ⟨"Invalid token", by simp [hemp]⟩
    · exact ⟨"Invalid token type", by simp [hemp, hty]⟩

/-- **C1 witness**: a concrete well-signed token of type `"bogus"` is
rejected by both flows. -/
theorem C1_token_type_cross_use_rejected_witness :
    (∃ m, AuthService.refresh_tokens Sdemo 0 DBempty
        (.signed [("type", .str "bogus"), ("exp", .num 5)] "k" "HS256") none none =
      .error (.InvalidTokenError m)) ∧
    (∃ m, AuthService.get_current_user Sdemo 0 DBempty
        (.signed [("type", .str "bogus"), ("exp", .num 5)] "k" "HS256") =
      .error (.InvalidTokenError m)) :=
  ⟨(C1_token_type_cross_use_rejected Sdemo 0 DBempty
      (.signed [("type", .str "bogus"), ("exp", .num 5)] "k" "HS256") none none
      [("type", .str "bogus"), ("exp", .num 5)] (by decide)).1 (by decide),
   (C1_token_type_cross_use_rejected Sdemo 0 DBempty
      (.signed [("type", .str "bogus"), ("exp", .num 5)] "k" "HS256") none none
      [("type", .str "bogus"), ("exp", .num 5)] (by decide)).2 (by decide)⟩

/-- **C4**. `register` raises `UserAlreadyExistsError` whenever an account
with the same email, compared case-insensitively, already exists (the
store invariant `hlow` records that stored emails are lowercase, which
`UserRepository.create` maintains); an error returns no store, so the
store is unchanged.  Otherwise it creates exactly one account row with a
lowercase-normalized email and `email_verified = false`, exactly one
session row, and returns `is_new_user = true`. -/
theorem C4_register_email_uniqueness (settings : Settings) (now : Nat) (db : DB)
    (email password : String) (entropy : Nat) (device_info ip_address : Option String)
    (hlow : ∀ u ∈ db.users, pyLower u.email = u.email) :
    ((∃ u ∈ db.users, pyLower u.email = pyLower email) →
      AuthService.register settings now db email password entropy device_info ip_address =
        .error (.UserAlreadyExistsError "User with this email already exists")) ∧
    ((¬ ∃ u ∈ db.users, pyLower u.email = pyLower email) →
      ∃ newUser newSession resp,
        AuthService.register settings now db email password entropy device_info ip_address =
          .ok ({ db with
                 next_id := db.next_id + 1 + 1
                 users := db.users ++ [newUser]
                 sessions := db.sessions ++ [newSession] }, resp) ∧
        newUser.email = pyLower email ∧
        newUser.email_verified = false ∧
        newSession.session_token = resp.refresh_token ∧
        resp.is_new_user = true) := by
  constructor
  · rintro ⟨u, hu, he⟩
    have hue : u.email = pyLower email := by rw [← hlow u hu, he]
    have hsome : (UserRepository.get_by_email db email).isSome := by
      unfold UserRepository.get_by_email
      rw [List.find?_isSome]
      exact ⟨u, hu, by simp [hue]⟩
    obtain ⟨v, hv⟩ := Option.isSome_iff_exists.mp hsome
    unfold AuthService.register
    rw [hv]
  · intro hnone
    have hfind : UserRepository.get_by_email db email = none := by
      unfold UserRepository.get_by_email
      rw [List.find?_eq_none]
      intro u hu hbeq
      exact hnone ⟨u, hu, by rw [hlow u hu]; simpa using hbeq⟩
    refine ⟨{ id := db.next_id, email := pyLower email,
              password_hash := some (hash_password password entropy),
              email_verified := false, is_active := true, last_login_at := none },
            { id := db.next_id + 1, user_id := db.next_id,
              session_token := create_refresh_token settings now (uuidStr db.next_id) none,
              device_info := device_info, ip_address := ip_address,
              expires_at := now + settings.REFRESH_TOKEN_EXPIRE_DAYS * 86400,
              created_at := now },
            { access_token := create_access_token settings now (uuidStr db.next_id) none none,
              refresh_token := create_refresh_token settings now (uuidStr db.next_id) none,
              is_new_user := true }, ?_, rfl, rfl, rfl, rfl⟩
    unfold AuthService.register
    rw [hfind]
    rfl

/-- **C4 witness**: registering `"a@x.com"` after `"A@x.com"` (stored
lowercased) fails with `UserAlreadyExistsError`; registering against an
empty store succeeds and creates the account and session rows. -/
theorem C4_register_email_uniqueness_witness :
    (AuthService.register Sdemo 0
        { next_id := 5,
          users := [{ id := 1, email := "a@x.com", password_hash := some "$2b$12$0.pw",
                      email_verified := false, is_active := true, last_login_at := none }],
          auth_providers := [], sessions := [] }
        "a@x.com" "secret!pw" 7 none none =
      .error (.UserAlreadyExistsError "User with this email already exists")) ∧
    (∃ newUser newSession resp,
      AuthService.register Sdemo 0 DBempty "B@x.com" "secret!pw" 7 none none =
        .ok ({ DBempty with
               next_id := DBempty.next_id + 1 + 1
               users := DBempty.users ++ [newUser]
               sessions := DBempty.sessions ++ [newSession] }, resp) ∧
      newUser.email = pyLower "B@x.com" ∧
      newUser.email_verified = false ∧
      newSession.session_token = resp.refresh_token ∧
      resp.is_new_user = true) :=
  ⟨(C4_register_email_uniqueness Sdemo 0
      { next_id := 5,
        users := [{ id := 1, email := "a@x.com", password_hash := some "$2b$12$0.pw",
                    email_verified := false, is_active := true, last_login_at := none }],
        auth_providers := [], sessions := [] }
      "a@x.com" "secret!pw" 7 none none (by decide)).1
      ⟨{ id := 1, email := "a@x.com", password_hash := some "$2b$12$0.pw",
         email_verified := false, is_active := true, last_login_at := none },
       by decide, by decide⟩,
   (C4_register_email_uniqueness Sdemo 0 DBempty "B@x.com" "secret!pw" 7 none none
      (by decide)).2 (by decide)⟩

/-- **C6**. `refresh_tokens` never deletes or modifies an existing session
row: whenever it succeeds, the store gains exactly one appended session
row — keyed by the newly minted refresh token — and every pre-existing
session row (in particular the one keyed by the presented refresh token)
is still present unchanged; the users and auth-provider tables are also
untouched. -/
theorem C6_refresh_preserves_sessions (settings : Settings) (now : Nat) (db : DB)
    (token : Jwt) (device_info ip_address : Option String) (db' : DB)
    (resp : TokenResponse)
    (hok : AuthService.refresh_tokens settings now db token device_info ip_address =
      .ok (db', resp)) :
    ∃ s, db'.sessions = db.sessions ++ [s] ∧
      s.session_token = resp.refresh_token ∧
      db'.users = db.users ∧
      db'.auth_providers = db.auth_providers ∧
      ∀ old ∈ db.sessions, old ∈ db'.sessions := by
  unfold AuthService.refresh_tokens at hok
  repeat' split at hok
  all_goals try exact Except.noConfusion hok
  injection hok with h
  simp only [Prod.mk.injEq] at h
  obtain ⟨h1, h2⟩ := h
  subst h1
  subst h2
  exact ⟨_, rfl, rfl, rfl, rfl, fun old h => List.mem_append_left _ h⟩

/-- The store for the concrete refresh instance: one active user and one
pre-existing session row. -/
def DB6 : DB :=
  { next_id := 5
    users := [{ id := 1, email := "a@x.com", password_hash := some "$2b$12$0.pw",
                email_verified := false, is_active := true, last_login_at := none }]
    auth_providers := []
    sessions := [{ id := 2, user_id := 1, session_token := .raw "old",
                   device_info := none, ip_address := none,
                   expires_at := 99, created_at := 0 }] }

/-- A valid refresh token for user 1 under `Sdemo`. -/
def tok6 : Jwt :=
  .signed [("sub", .str "uuid-1"), ("exp", .num 99), ("type", .str "refresh")] "k" "HS256"

/-- The store after the concrete refresh: the old session row plus one new
row keyed by the freshly minted refresh token. -/
def DB6' : DB :=
  { next_id := 6
    users := [{ id := 1, email := "a@x.com", password_hash := some "$2b$12$0.pw",
                email_verified := false, is_active := true, last_login_at := none }]
    auth_providers := []
    sessions := [{ id := 2, user_id := 1, session_token := .raw "old",
                   device_info := none, ip_address := none,
                   expires_at := 99, created_at := 0 },
                 { id := 5, user_id := 1,
                   session_token := .signed [("sub", .str "uuid-1"), ("exp", .num 2592000),
                     ("type", .str "refresh")] "k" "HS256",
                   device_info := none, ip_address := none,
                   expires_at := 2592000, created_at := 0 }] }

/-- The token pair returned by the concrete refresh. -/
def resp6 : TokenResponse :=
  { access_token := .signed [("sub", .str "uuid-1"), ("exp", .num 900),
      ("type", .str "access")] "k" "HS256"
    refresh_token := .signed [("sub", .str "uuid-1"), ("exp", .num 2592000),
      ("type", .str "refresh")] "k" "HS256"
    is_new_user := false }

/-- **C6 witness**: a successful concrete refresh, showing the old session
row survives and exactly one row is appended. -/
theorem C6_refresh_preserves_sessions_witness :
    ∃ s, DB6'.sessions = DB6.sessions ++ [s] ∧
      s.session_token = resp6.refresh_token ∧
      DB6'.users = DB6.users ∧
      DB6'.auth_providers = DB6.auth_providers ∧
      ∀ old ∈ DB6.sessions, old ∈ DB6'.sessions :=
  C6_refresh_preserves_sessions Sdemo 0 DB6 tok6 none none DB6' resp6 (by rfl)

/-- **C7**. `logout` never fails (it is a total function on the store): if
a session row keyed by the presented token exists it is deleted, if none
exists the store is returned unchanged, and — under the store's unique
constraint on `session_token` — running `logout` twice with the same
token equals running it once. -/
theorem C7_logout_idempotent (db : DB) (session_token : Jwt) :
    (UserRepository.get_session_by_token db session_token = none →
      AuthService.logout db session_token = db) ∧
    (∀ s, UserRepository.get_session_by_token db session_token = some s →
      s ∈ db.sessions ∧
      AuthService.logout db session_token =
        { db with sessions := db.sessions.filter (fun s' => s'.id != s.id) }) ∧
    ((db.sessions.map (fun s => s.session_token)).Nodup →
      AuthService.logout (AuthService.logout db session_token) session_token =
        AuthService.logout db session_token) := by
  refine ⟨?_, ?_, ?_⟩
  · intro h
    unfold AuthService.logout
    rw [h]
  · intro s hs
    refine ⟨List.mem_of_find?_eq_some hs, ?_⟩
    unfold AuthService.logout
    rw [hs]
    rfl
  · intro hnd
    cases h : UserRepository.get_session_by_token db session_token with
    | none =>
      have h1 : AuthService.logout db session_token = db := by
        unfold AuthService.logout; rw [h]
      rw [h1, h1]
    | some s =>
      have h' : db.sessions.find? (fun s' => s'.session_token == session_token) = some s := h
      have hmem : s ∈ db.sessions := List.mem_of_find?_eq_some h'
      have hpred := List.find?_some h' 
      have h1 : AuthService.logout db session_token =
          { db with sessions := db.sessions.filter (fun s' => s'.id != s.id) } := by
        unfold AuthService.logout; rw [h]; rfl
      rw [h1]
      have hnone : UserRepository.get_session_by_token
          { db with sessions := db.sessions.filter (fun s' => s'.id != s.id) }
          session_token = none := by
        unfold UserRepository.get_session_by_token
        refine List.find?_eq_none.mpr ?_
        intro x hx hbeq
        have hx' := List.mem_filter.mp hx
        have hxid : (x.id != s.id) = true := hx'.2
        have hxtok : x.session_token = session_token := by
          simpa using hbeq
        have hstok : s.session_token = session_token := by
          simpa using hpred
        have hxs : x = s :=
          List.inj_on_of_nodup_map hnd hx'.1 hmem (hxtok.trans hstok.symm)
        simp [hxs] at hxid
      unfold AuthService.logout
      rw [hnone]

/-- **C7 witness**: a concrete store with one session row; the silent
no-op at an unknown token and double-logout idempotence at the stored
token. -/
theorem C7_logout_idempotent_witness :
    (AuthService.logout DBempty (.raw "unknown") = DBempty) ∧
    (AuthService.logout (AuthService.logout
        { next_id := 5, users := [], auth_providers := [],
          sessions := [{ id := 1, user_id := 2, session_token := .raw "t",
                         device_info := none, ip_address := none,
                         expires_at := 9, created_at := 1 }] } (.raw "t")) (.raw "t") =
      AuthService.logout
        { next_id := 5, users := [], auth_providers := [],
          sessions := [{ id := 1, user_id := 2, session_token := .raw "t",
                         device_info := none, ip_address := none,
                         expires_at := 9, created_at := 1 }] } (.raw "t")) :=
  ⟨(C7_logout_idempotent DBempty (.raw "unknown")).1 (by decide),
   (C7_logout_idempotent
      { next_id := 5, users := [], auth_providers := [],
        sessions := [{ id := 1, user_id := 2, session_token := .raw "t",
                       device_info := none, ip_address := none,
                       expires_at := 9, created_at := 1 }] } (.raw "t")).2.2 (by decide)⟩

/-- **C10** (implicit). `google_login` performs no active-account check:
for every existing account whose `is_active` flag is false, `google_login`
with a verified Google assertion for that account's email still updates
`last_login_at` and returns a fresh token pair — whereas `login`,
`refresh_tokens`, and `get_current_user` all reject the same inactive
account. -/
theorem C10_google_login_skips_active_check (settings : Settings) (now : Nat)
    (db : DB) (device_info ip_address : Option String) :
    (∀ (gu : GoogleUser) (e gsub : String) (user : User),
      gu.email = some e → e ≠ "" → gu.sub = some gsub → gsub ≠ "" →
      UserRepository.get_by_email db e = some user → user.is_active = false →
      ∃ db' resp,
        AuthService.google_login settings now db gu device_info ip_address =
          .ok (db', resp) ∧
        ∃ u', UserRepository.get_by_id db' user.id = some u' ∧
          u'.last_login_at = some now) ∧
    (∀ (email password : String) (user : User),
      UserRepository.get_by_email db email = some user →
      pyStrTruthy user.password_hash = true →
      verify_password password (user.password_hash.getD "") = .ok true →
      user.is_active = false →
      AuthService.login settings now db email password device_info ip_address =
        .error (.InvalidCredentialsError "Account is deactivated")) ∧
    (∀ (token : Jwt) (payload : Claims) (s : String) (uid : Nat) (user : User),
      decode_token settings now token = some payload →
      dget payload "type" = some (.str "refresh") →
      dget payload "sub" = some (.str s) → s ≠ "" →
      uuidOfString s = some uid →
      UserRepository.get_by_id db uid = some user → user.is_active = false →
      AuthService.refresh_tokens settings now db token device_info ip_address =
        .error (.InvalidTokenError "Invalid token")) ∧
    (∀ (token : Jwt) (payload : Claims) (s : String) (uid : Nat) (user : User),
      decode_token settings now token = some payload →
      dget payload "type" = some (.str "access") →
      dget payload "sub" = some (.str s) → s ≠ "" →
      uuidOfString s = some uid →
      UserRepository.get_by_id db uid = some user → user.is_active = false →
      AuthService.get_current_user settings now db token =
        .error (.InvalidTokenError "Account is deactivated")) := by
  refine ⟨?_, ?_, ?_, ?_⟩
  · intro gu e gsub user he hne hs hns hemail hact
    have hmem : user ∈ db.users := List.mem_of_find?_eq_some hemail
    unfold AuthService.google_login
    rw [he, hs]
    simp only [pyStrTruthy, Option.getD_some]
    have hne' : (e != "") = true := by simpa using hne
    have hns' : (gsub != "") = true := by simpa using hns
    rw [hne', hns']
    simp only [Bool.not_true, Bool.or_self, Bool.false_eq_true, if_false]
    rw [hemail]
    cases hap : UserRepository.get_auth_provider db "google" gsub with
    | none =>
      refine ⟨_, _, rfl, ?_⟩
      exact get_by_id_update_last_login
        (UserRepository.create_auth_provider db user.id "google" gsub
          none none none (some ⟨gu.picture, gu.given_name, gu.family_name, gu.locale⟩)).1
        user now hmem
    | some ap =>
      refine ⟨_, _, rfl, ?_⟩
      exact get_by_id_update_last_login db user now hmem
  · intro email password user h hph hverify hact
    unfold AuthService.login
    simp [h, hph, hverify, hact]
  · intro token payload s uid user hdec hty hsub hsne huuid huser hact
    unfold AuthService.refresh_tokens
    rw [hdec]
    have hemp : payload.isEmpty = false := dget_isEmpty_false hsub
    simp [hemp, hty, hsub, hsne, huuid, huser, hact, UUIDOfVal, cvalTruthy]
  · intro token payload s uid user hdec hty hsub hsne huuid huser hact
    unfold AuthService.get_current_user
    rw [hdec]
    have hemp : payload.isEmpty = false := dget_isEmpty_false hsub
    simp [hemp, hty, hsub, hsne, huuid, huser, hact, UUIDOfVal, cvalTruthy]

/-- The inactive account of the C10 instance. -/
def u10 : User :=
  { id := 1, email := "a@x.com", password_hash := some "$2b$12$0.pw",
    email_verified := false, is_active := false, last_login_at := none }

/-- Store holding only the inactive account. -/
def DB10 : DB := { next_id := 5, users := [u10], auth_providers := [], sessions := [] }

/-- A verified Google assertion for the inactive account's email. -/
def gu10 : GoogleUser :=
  { email := some "a@x.com", sub := some "g1", name := none, picture := none,
    given_name := none, family_name := none, email_verified := true, locale := none }

/-- A valid refresh token for the inactive account under `Sdemo`. -/
def tokR10 : Jwt :=
  .signed [("sub", .str "uuid-1"), ("exp", .num 99), ("type", .str "refresh")] "k" "HS256"

/-- A valid access token for the inactive account under `Sdemo`. -/
def tokA10 : Jwt :=
  .signed [("sub", .str "uuid-1"), ("exp", .num 99), ("type", .str "access")] "k" "HS256"

/-- **C10 witness**: with the single inactive account, `google_login`
succeeds and stamps `last_login_at`, while `login`, `refresh_tokens` and
`get_current_user` all reject. -/
theorem C10_google_login_skips_active_check_witness :
    (∃ db' resp,
      AuthService.google_login Sdemo 7 DB10 gu10 none none = .ok (db', resp) ∧
      ∃ u', UserRepository.get_by_id db' u10.id = some u' ∧
        u'.last_login_at = some 7) ∧
    (AuthService.login Sdemo 7 DB10 "a@x.com" "pw" none none =
      .error (.InvalidCredentialsError "Account is deactivated")) ∧
    (AuthService.refresh_tokens Sdemo 0 DB10 tokR10 none none =
      .error (.InvalidTokenError "Invalid token")) ∧
    (AuthService.get_current_user Sdemo 0 DB10 tokA10 =
      .error (.InvalidTokenError "Account is deactivated")) :=
  ⟨(C10_google_login_skips_active_check Sdemo 7 DB10 none none).1 gu10 "a@x.com" "g1"
      u10 rfl (by decide) rfl (by decide) (by decide) rfl,
   (C10_google_login_skips_active_check Sdemo 7 DB10 none none).2.1 "a@x.com" "pw"
      u10 (by decide) rfl (by rfl) rfl,
   (C10_google_login_skips_active_check Sdemo 0 DB10 none none).2.2.1 tokR10
      [("sub", .str "uuid-1"), ("exp", .num 99), ("type", .str "refresh")] "uuid-1" 1
      u10 (by rfl) (by rfl) (by rfl) (by decide) (by rfl) (by decide) rfl,
   (C10_google_login_skips_active_check Sdemo 0 DB10 none none).2.2.2 tokA10
      [("sub", .str "uuid-1"), ("exp", .num 99), ("type", .str "access")] "uuid-1" 1
      u10 (by rfl) (by rfl) (by rfl) (by decide) (by rfl) (by decide) rfl⟩

/-- The account of the C9 instance, which already has a google link. -/
def u9 : User :=
  { id := 1, email := "a@x.com", password_hash := some "$2b$12$0.pw",
    email_verified := true, is_active := true, last_login_at := none }

/-- Store where account 1 is linked to google subject `"sub1"`. -/
def DB9 : DB :=
  { next_id := 10, users := [u9],
    auth_providers := [{ id := 2, user_id := 1, provider := "google",
                         provider_user_id := "sub1", access_token := none,
                         refresh_token := none, token_expires_at := none,
                         provider_data := none }],
    sessions := [] }

/-- A verified Google assertion for the same email but subject `"sub2"`. -/
def gu9 : GoogleUser :=
  { email := some "a@x.com", sub := some "sub2", name := none, picture := none,
    given_name := none, family_name := none, email_verified := true, locale := none }

/-- The same assertion with the already-linked subject `"sub1"`. -/
def gu9same : GoogleUser := { gu9 with sub := some "sub1" }

/-- The number of google links held by account `uid` after a login
outcome (0 when the login failed). -/
def googleLinkCount (r : Except Exc (DB × TokenResponse)) (uid : Nat) : Nat :=
  match r with
  | .ok p => (p.1.auth_providers.filter
      (fun ap => ap.user_id == uid && ap.provider == "google")).length
  | .error _ => 0

/-- **C9 counterexample**: account 1 already holds a google link for
subject `"sub1"`; a `google_login` whose verified subject is `"sub2"` but
whose email matches that account succeeds and leaves the account with TWO
google links — the claimed application-level at-most-one-google-link-per-
account invariant does not hold. -/
theorem C9_counterexample_two_google_links :
    googleLinkCount (AuthService.google_login Sdemo 0 DB9 gu9 none none) 1 = 2 := by
  rfl

/-- **C9 amended**. What `google_login` does enforce at the application
level, when the asserted email resolves to an existing account, is
uniqueness per (provider, provider-subject) pair: a link is created only
when no row with that pair exists, so pair-uniqueness of the link table
is preserved, and a repeated login with an already-linked subject creates
no row at all.  Per-account at-most-one-link-per-provider is NOT
enforced: an account can accrue google links with different subjects
(see the counterexample). -/
theorem C9_amended_google_link_pair_uniqueness (settings : Settings) (now : Nat)
    (db : DB) (gu : GoogleUser) (device_info ip_address : Option String)
    (user : User) (db' : DB) (resp : TokenResponse)
    (hemail : UserRepository.get_by_email db (gu.email.getD "") = some user)
    (hnd : (db.auth_providers.map (fun ap => (ap.provider, ap.provider_user_id))).Nodup)
    (hok : AuthService.google_login settings now db gu device_info ip_address =
      .ok (db', resp)) :
    (db'.auth_providers.map (fun ap => (ap.provider, ap.provider_user_id))).Nodup ∧
    (∀ ap₀, UserRepository.get_auth_provider db "google" (gu.sub.getD "") = some ap₀ →
      db'.auth_providers = db.auth_providers) := by
  simp only [AuthService.google_login] at hok
  split at hok
  · exact Except.noConfusion hok
  · rw [hemail] at hok
    injection hok with h
    simp only [Prod.mk.injEq] at h
    obtain ⟨h1, h2⟩ := h
    subst h1
    cases hap : UserRepository.get_auth_provider db "google" (gu.sub.getD "") with
    | some ap =>
      exact ⟨hnd, fun ap₀ _ => rfl⟩
    | none =>
      constructor
      · show (List.map (fun ap => (ap.provider, ap.provider_user_id))
          (db.auth_providers ++ [_])).Nodup
        rw [List.map_append, List.map_singleton, List.nodup_append]
        refine ⟨hnd, List.nodup_singleton _, fun a ha hb => ?_⟩
        simp only [List.mem_singleton] at hb
        subst hb
        obtain ⟨ap, hmem, hfap⟩ := List.mem_map.mp ha
        have hap' : db.auth_providers.find?
            (fun ap => ap.provider == "google" &&
              ap.provider_user_id == (gu.sub.getD "")) = none := hap
        have hnp := List.find?_eq_none.mp hap' ap hmem
        apply hnp
        have hp1 : ap.provider = "google" := congrArg Prod.fst hfap
        have hp2 : ap.provider_user_id = gu.sub.getD "" := congrArg Prod.snd hfap
        simp [hp1, hp2]
      · intro ap₀ hap₀
        exact Option.noConfusion hap₀

/-- The store after the repeated-subject login of the C9 amended witness:
only `last_login_at` and a new session row change; no new link. -/
def DB9' : DB :=
  { next_id := 11
    users := [{ id := 1, email := "a@x.com", password_hash := some "$2b$12$0.pw",
                email_verified := true, is_active := true, last_login_at := some 0 }]
    auth_providers := [{ id := 2, user_id := 1, provider := "google",
                         provider_user_id := "sub1", access_token := none,
                         refresh_token := none, token_expires_at := none,
                         provider_data := none }]
    sessions := [{ id := 10, user_id := 1,
                   session_token := .signed [("sub", .str "uuid-1"), ("exp", .num 2592000),
                     ("type", .str "refresh")] "k" "HS256",
                   device_info := none, ip_address := none,
                   expires_at := 2592000, created_at := 0 }] }

/-- The token pair of the C9 amended witness run. -/
def resp9 : TokenResponse :=
  { access_token := .signed [("sub", .str "uuid-1"), ("exp", .num 900),
      ("type", .str "access")] "k" "HS256"
    refresh_token := .signed [("sub", .str "uuid-1"), ("exp", .num 2592000),
      ("type", .str "refresh")] "k" "HS256"
    is_new_user := false }

/-- **C9 amended witness**: a concrete `google_login` with the
already-linked subject preserves pair-uniqueness and creates no new link
row. -/
theorem C9_amended_google_link_pair_uniqueness_witness :
    (DB9'.auth_providers.map (fun ap => (ap.provider, ap.provider_user_id))).Nodup ∧
    (∀ ap₀, UserRepository.get_auth_provider DB9 "google" (gu9same.sub.getD "") = some ap₀ →
      DB9'.auth_providers = DB9.auth_providers) :=
  C9_amended_google_link_pair_uniqueness Sdemo 0 DB9 gu9same none none u9 DB9' resp9
    (by decide) (by decide) (by rfl)

/-- **C3 counterexample**: a well-signed, unexpired access token whose
subject claim is the string `"nope"` — which does not resolve to an
account, so by the claim the outcome should be `UserNotFoundError` — makes
`get_current_user` raise an uncaught `ValueError` from `uuid.UUID(...)`
instead: neither of the claimed errors, and no user is returned. -/
theorem C3_counterexample_malformed_subject :
    AuthService.get_current_user Sdemo 0 DBempty
        (.signed [("sub", .str "nope"), ("exp", .num 10), ("type", .str "access")]
          "k" "HS256") =
      .error (.PyValueError "badly formed hexadecimal UUID string") := by
  rfl

/-- **C3 amended**. `get_current_user` fails with exactly the specified
error per cause — `InvalidTokenError` when decode fails, when the claims
dict is empty, when the `type` claim is not `"access"`, or when the
subject claim is missing/falsy; `UserNotFoundError` when the subject does
not resolve to an existing account; `InvalidTokenError` ("Account is
deactivated") when the resolved account is inactive; and otherwise
returns the resolved user — PROVIDED the present subject string parses
as a UUID.  (A decoded subject is always a string, since `jwt.decode`
rejects non-string `sub` claims as a decode failure; a well-signed access
token whose subject string is not a valid UUID instead raises an uncaught
`ValueError` — see the counterexample.) -/
theorem C3_amended_get_current_user_cases (settings : Settings) (now : Nat)
    (db : DB) (token : Jwt) :
    (decode_token settings now token = none →
      AuthService.get_current_user settings now db token =
        .error (.InvalidTokenError "Invalid token")) ∧
    (∀ payload, decode_token settings now token = some payload →
      payload.isEmpty = true →
      AuthService.get_current_user settings now db token =
        .error (.InvalidTokenError "Invalid token")) ∧
    (∀ payload, decode_token settings now token = some payload →
      payload.isEmpty = false →
      dget payload "type" ≠ some (.str "access") →
      AuthService.get_current_user settings now db token =
        .error (.InvalidTokenError "Invalid token type")) ∧
    (∀ payload, decode_token settings now token = some payload →
      dget payload "type" = some (.str "access") →
      cvalTruthy (dget payload "sub") = false →
      AuthService.get_current_user settings now db token =
        .error (.InvalidTokenError "Invalid token")) ∧
    (∀ payload s uid, decode_token settings now token = some payload →
      dget payload "type" = some (.str "access") →
      dget payload "sub" = some (.str s) → s ≠ "" →
      uuidOfString s = some uid →
      UserRepository.get_by_id db uid = none →
      AuthService.get_current_user settings now db token =
        .error (.UserNotFoundError "User not found")) ∧
    (∀ payload s uid user, decode_token settings now token = some payload →
      dget payload "type" = some (.str "access") →
      dget payload "sub" = some (.str s) → s ≠ "" →
      uuidOfString s = some uid →
      UserRepository.get_by_id db uid = some user →
      ((user.is_active = false →
        AuthService.get_current_user settings now db token =
          .error (.InvalidTokenError "Account is deactivated")) ∧
       (user.is_active = true →
        AuthService.get_current_user settings now db token = .ok user))) := by
  refine ⟨?_, ?_, ?_, ?_, ?_, ?_⟩
  · intro h
    unfold AuthService.get_current_user
    rw [h]
  · intro payload hdec hemp
    unfold AuthService.get_current_user
    rw [hdec]
    simp [hemp]
  · intro payload hdec hemp hty
    unfold AuthService.get_current_user
    rw [hdec]
    simp [hemp, hty]
  · intro payload hdec hty hsub
    have hemp := dget_isEmpty_false hty
    unfold AuthService.get_current_user
    rw [hdec]
    simp [hemp, hty, hsub]
  · intro payload s uid hdec hty hsub hsne huuid huser
    have hemp := dget_isEmpty_false hty
    unfold AuthService.get_current_user
    rw [hdec]
    simp [hemp, hty, hsub, hsne, huuid, huser, UUIDOfVal, cvalTruthy]
  · intro payload s uid user hdec hty hsub hsne huuid huser
    have hemp := dget_isEmpty_false hty
    constructor <;> intro hact <;>
      (unfold AuthService.get_current_user
       rw [hdec]
       simp [hemp, hty, hsub, hsne, huuid, huser, hact, UUIDOfVal, cvalTruthy])

/-- **C3 amended witness**: concrete instances of the last three cases —
unknown subject, deactivated account, and the successful path. -/
theorem C3_amended_get_current_user_cases_witness :
    (AuthService.get_current_user Sdemo 0 DB6
        (.signed [("sub", .str "uuid-9"), ("exp", .num 99), ("type", .str "access")]
          "k" "HS256") =
      .error (.UserNotFoundError "User not found")) ∧
    (AuthService.get_current_user Sdemo 0 DB10 tokA10 =
      .error (.InvalidTokenError "Account is deactivated")) ∧
    (AuthService.get_current_user Sdemo 0 DB6
        (.signed [("sub", .str "uuid-1"), ("exp", .num 99), ("type", .str "access")]
          "k" "HS256") =
      .ok { id := 1, email := "a@x.com", password_hash := some "$2b$12$0.pw",
            email_verified := false, is_active := true, last_login_at := none }) :=
  ⟨(C3_amended_get_current_user_cases Sdemo 0 DB6
      (.signed [("sub", .str "uuid-9"), ("exp", .num 99), ("type", .str "access")]
        "k" "HS256")).2.2.2.2.1
      [("sub", .str "uuid-9"), ("exp", .num 99), ("type", .str "access")] "uuid-9" 9
      (by rfl) (by rfl) (by rfl) (by decide) (by rfl) (by rfl),
   ((C3_amended_get_current_user_cases Sdemo 0 DB10 tokA10).2.2.2.2.2
      [("sub", .str "uuid-1"), ("exp", .num 99), ("type", .str "access")] "uuid-1" 1
      u10 (by rfl) (by rfl) (by rfl) (by decide) (by rfl) (by decide)).1 rfl,
   ((C3_amended_get_current_user_cases Sdemo 0 DB6
      (.signed [("sub", .str "uuid-1"), ("exp", .num 99), ("type", .str "access")]
        "k" "HS256")).2.2.2.2.2
      [("sub", .str "uuid-1"), ("exp", .num 99), ("type", .str "access")] "uuid-1" 1
      { id := 1, email := "a@x.com", password_hash := some "$2b$12$0.pw",
        email_verified := false, is_active := true, last_login_at := none }
      (by rfl) (by rfl) (by rfl) (by decide) (by rfl) (by decide)).2 rfl⟩

set_option maxHeartbeats 1000000 in
/-- Success of the post-validation tail of `complete_onboarding`: whenever
it returns, the response profile has `onboarding_completed = true` and
`identity_locked_until = now + 30 days`, and is the row the store now
holds for the user.  `hnd`/`hfresh` record the store's primary-key
uniqueness and id-allocation invariants. -/
theorem complete_onboarding_validated_props (pdb : ProfileDB) (user_id : Nat)
    (data : OnboardingRequest) (now : Nat) (existing : Option UserProfile)
    (hnd : (pdb.profiles.map (fun q => q.id)).Nodup)
    (hfresh : ∀ q ∈ pdb.profiles, q.id < pdb.next_id)
    (hex : ProfileRepository.get_by_user_id pdb user_id = existing) :
    ∀ pdb' resp, ProfileService.complete_onboarding_validated pdb user_id data now existing =
        .ok (pdb', resp) →
      resp.profile.onboarding_completed = true ∧
      resp.profile.identity_locked_until = some (now + 30 * 86400) ∧
      ProfileRepository.get_by_user_id pdb' user_id = some resp.profile := by
  intro pdb' resp hok
  unfold ProfileService.complete_onboarding_validated at hok
  repeat' split at hok
  all_goals try exact Except.noConfusion hok
  all_goals try simp only [] at hok
  all_goals repeat' split at hok
  all_goals try exact Except.noConfusion hok
  -- two goals remain: the update branch (existing = some p) and the
  -- create branch (existing = none), each with the reload found.
  · -- update branch
    rename_i p osc profile hreload
    have hp : ProfileRepository.get_by_user_id pdb user_id = some p := hex
    have hpuid : p.user_id = user_id := by
      have := List.find?_some (hp :
        pdb.profiles.find? (fun q => q.user_id == user_id) = some p)
      simpa using this
    have h1 : ProfileRepository.get_by_user_id
        (pdb.writeProfile (ProfileRepository.update pdb p
          (some data.player_name) data.avatar_url data.bio (some data.timezone)).2)
        user_id = some (ProfileRepository.update pdb p
          (some data.player_name) data.avatar_url data.bio (some data.timezone)).2 :=
      get_by_user_id_writeProfile pdb user_id p _ hnd hp rfl hpuid
    have hnd1 : (((pdb.writeProfile (ProfileRepository.update pdb p
        (some data.player_name) data.avatar_url data.bio (some data.timezone)).2)).profiles.map
          (fun q => q.id)).Nodup := by
      rw [writeProfile_map_id]
      exact hnd
    have h2 : ProfileRepository.get_by_user_id
        ((pdb.writeProfile (ProfileRepository.update pdb p
          (some data.player_name) data.avatar_url data.bio (some data.timezone)).2).writeProfile
          { (ProfileRepository.update pdb p
              (some data.player_name) data.avatar_url data.bio (some data.timezone)).2 with
            archetype_id := some data.archetype_id
            life_mode_id := some data.life_mode_id })
        user_id = some
          { (ProfileRepository.update pdb p
              (some data.player_name) data.avatar_url data.bio (some data.timezone)).2 with
            archetype_id := some data.archetype_id
            life_mode_id := some data.life_mode_id } :=
      get_by_user_id_writeProfile _ user_id _ _ hnd1 h1 rfl hpuid
    have hnd2 : ((((pdb.writeProfile (ProfileRepository.update pdb p
        (some data.player_name) data.avatar_url data.bio (some data.timezone)).2).writeProfile
          { (ProfileRepository.update pdb p
              (some data.player_name) data.avatar_url data.bio (some data.timezone)).2 with
            archetype_id := some data.archetype_id
            life_mode_id := some data.life_mode_id })).profiles.map (fun q => q.id)).Nodup := by
      rw [writeProfile_map_id, writeProfile_map_id]
      exact hnd
    have h3 : ProfileRepository.get_by_user_id
        ((ProfileRepository.set_user_life_areas
            ((pdb.writeProfile (ProfileRepository.update pdb p
              (some data.player_name) data.avatar_url data.bio (some data.timezone)).2).writeProfile
              { (ProfileRepository.update pdb p
                  (some data.player_name) data.avatar_url data.bio (some data.timezone)).2 with
                archetype_id := some data.archetype_id
                life_mode_id := some data.life_mode_id })
            user_id data.life_area_ids now).writeProfile
          (ProfileRepository.mark_onboarding_complete
            (ProfileRepository.set_user_life_areas
              ((pdb.writeProfile (ProfileRepository.update pdb p
                (some data.player_name) data.avatar_url data.bio (some data.timezone)).2).writeProfile
                { (ProfileRepository.update pdb p
                    (some data.player_name) data.avatar_url data.bio (some data.timezone)).2 with
                  archetype_id := some data.archetype_id
                  life_mode_id := some data.life_mode_id })
              user_id data.life_area_ids now)
            { (ProfileRepository.update pdb p
                (some data.player_name) data.avatar_url data.bio (some data.timezone)).2 with
              archetype_id := some data.archetype_id
              life_mode_id := some data.life_mode_id }
            now).2)
        user_id = some
          (ProfileRepository.mark_onboarding_complete
            (ProfileRepository.set_user_life_areas
              ((pdb.writeProfile (ProfileRepository.update pdb p
                (some data.player_name) data.avatar_url data.bio (some data.timezone)).2).writeProfile
                { (ProfileRepository.update pdb p
                    (some data.player_name) data.avatar_url data.bio (some data.timezone)).2 with
                  archetype_id := some data.archetype_id
                  life_mode_id := some data.life_mode_id })
              user_id data.life_area_ids now)
            { (ProfileRepository.update pdb p
                (some data.player_name) data.avatar_url data.bio (some data.timezone)).2 with
              archetype_id := some data.archetype_id
              life_mode_id := some data.life_mode_id }
            now).2 :=
      get_by_user_id_writeProfile _ user_id _ _ hnd2 h2 rfl hpuid
    injection hok with h
    simp only [Prod.mk.injEq] at h
    obtain ⟨hdb, hresp⟩ := h
    subst hdb
    subst hresp
    have hprof : profile = _ := Option.some.inj (hreload.symm.trans h3)
    refine ⟨?_, ?_, ?_⟩
    · show profile.onboarding_completed = true
      rw [hprof]
      rfl
    · show profile.identity_locked_until = some (now + 30 * 86400)
      rw [hprof]
      rfl
    · exact hreload
  · -- create branch
    rename_i profile hreload
    have hfind0 : ProfileRepository.get_by_user_id
        (ProfileRepository.create pdb user_id data.player_name (some data.archetype_id)
          (some data.life_mode_id) data.avatar_url data.bio data.timezone).1 user_id =
        some (ProfileRepository.create pdb user_id data.player_name (some data.archetype_id)
          (some data.life_mode_id) data.avatar_url data.bio data.timezone).2 := by
      show (pdb.profiles ++ [(_ : UserProfile)]).find?
        (fun q : UserProfile => q.user_id == user_id) = some _
      have hexf : pdb.profiles.find? (fun q : UserProfile => q.user_id == user_id) = none := hex
      rw [List.find?_append, hexf]
      simp [ProfileRepository.create]
    have hnd0 : ((((ProfileRepository.create pdb user_id data.player_name
        (some data.archetype_id) (some data.life_mode_id) data.avatar_url data.bio
        data.timezone).1)).profiles.map (fun q => q.id)).Nodup := by
      show ((pdb.profiles ++ [(_ : UserProfile)]).map (fun q : UserProfile => q.id)).Nodup
      rw [List.map_append, List.map_singleton, List.nodup_append]
      refine ⟨hnd, List.nodup_singleton _, fun a ha hb => ?_⟩
      simp only [List.mem_singleton] at hb
      subst hb
      obtain ⟨q, hq, hfq⟩ := List.mem_map.mp ha
      have hqid : q.id = pdb.next_id := hfq
      have hlt := hfresh q hq
      rw [hqid] at hlt
      exact absurd hlt (lt_irrefl _)
    have h3 : ProfileRepository.get_by_user_id
        ((ProfileRepository.set_user_life_areas
            (ProfileRepository.create pdb user_id data.player_name (some data.archetype_id)
              (some data.life_mode_id) data.avatar_url data.bio data.timezone).1
            user_id data.life_area_ids now).writeProfile
          (ProfileRepository.mark_onboarding_complete
            (ProfileRepository.set_user_life_areas
              (ProfileRepository.create pdb user_id data.player_name (some data.archetype_id)
                (some data.life_mode_id) data.avatar_url data.bio data.timezone).1
              user_id data.life_area_ids now)
            (ProfileRepository.create pdb user_id data.player_name (some data.archetype_id)
              (some data.life_mode_id) data.avatar_url data.bio data.timezone).2
            now).2)
        user_id = some
          (ProfileRepository.mark_onboarding_complete
            (ProfileRepository.set_user_life_areas
              (ProfileRepository.create pdb user_id data.player_name (some data.archetype_id)
                (some data.life_mode_id) data.avatar_url data.bio data.timezone).1
              user_id data.life_area_ids now)
            (ProfileRepository.create pdb user_id data.player_name (some data.archetype_id)
              (some data.life_mode_id) data.avatar_url data.bio data.timezone).2
            now).2 :=
      get_by_user_id_writeProfile _ user_id _ _ hnd0 hfind0 rfl rfl
    injection hok with h
    simp only [Prod.mk.injEq] at h
    obtain ⟨hdb, hresp⟩ := h
    subst hdb
    subst hresp
    have hprof : profile = _ := Option.some.inj (hreload.symm.trans h3)
    refine ⟨?_, ?_, ?_⟩
    · show profile.onboarding_completed = true
      rw [hprof]
      rfl
    · show profile.identity_locked_until = some (now + 30 * 86400)
      rw [hprof]
      rfl
    · exact hreload

/-- **C8**. On first-time onboarding completion (any completing run),
`complete_onboarding` sets the profile's `onboarding_completed` flag to
true and `identity_locked_until` to exactly `now + 30 days` (the stored
row equals the returned profile); and if onboarding was already completed
for that user it raises `ValidationError` — an error returns no store, so
the profile is unmodified. -/
theorem C8_complete_onboarding_identity_lock (pdb : ProfileDB) (user_id : Nat)
    (data : OnboardingRequest) (now : Nat)
    (hnd : (pdb.profiles.map (fun q => q.id)).Nodup)
    (hfresh : ∀ q ∈ pdb.profiles, q.id < pdb.next_id) :
    ((∃ q, ProfileRepository.get_by_user_id pdb user_id = some q ∧
        q.onboarding_completed = true) →
      ProfileService.complete_onboarding pdb user_id data now =
        .error (.ValidationError "Onboarding already completed")) ∧
    (∀ pdb' resp, ProfileService.complete_onboarding pdb user_id data now =
        .ok (pdb', resp) →
      resp.profile.onboarding_completed = true ∧
      resp.profile.identity_locked_until = some (now + 30 * 86400) ∧
      ProfileRepository.get_by_user_id pdb' user_id = some resp.profile) := by
  constructor
  · rintro ⟨q, hq, hc⟩
    unfold ProfileService.complete_onboarding
    rw [hq]
    simp [hc]
  · intro pdb' resp hok
    apply complete_onboarding_validated_props pdb user_id data now
      (ProfileRepository.get_by_user_id pdb user_id) hnd hfresh rfl pdb' resp
    unfold ProfileService.complete_onboarding at hok
    simp only [] at hok
    repeat' split at hok
    all_goals try exact Except.noConfusion hok
    all_goals exact hok

/-- A profile store whose user 1 has already completed onboarding. -/
def PDB8a : ProfileDB :=
  { next_id := 5
    profiles := [{ id := 1, user_id := 1, player_name := "hero", archetype_id := none,
                   life_mode_id := none, level := 1, total_core_xp := 0, avatar_url := none,
                   bio := none, timezone := "UTC", identity_locked_until := some 999,
                   onboarding_completed := true }]
    archetypes := []
    life_modes := []
    life_areas := []
    user_life_areas := [] }

/-- A profile store with no profiles and valid onboarding reference data. -/
def PDB8b : ProfileDB :=
  { next_id := 10
    profiles := []
    archetypes := [{ id := 2, name := "Explorer", description := none }]
    life_modes := [{ id := 3, name := "Growth", description := none }]
    life_areas := [{ id := 4, name := "Mind", emoji := none, description := none,
                     is_active := true }]
    user_life_areas := [] }

/-- An onboarding request against `PDB8b`'s reference data. -/
def data8 : OnboardingRequest :=
  { player_name := "hero", archetype_id := 2, life_mode_id := 3, life_area_ids := [4],
    avatar_url := none, bio := none, timezone := "UTC" }

/-- The store after the successful concrete onboarding run at time 100. -/
def PDB8b' : ProfileDB :=
  { next_id := 12
    profiles := [{ id := 10, user_id := 1, player_name := "hero", archetype_id := some 2,
                   life_mode_id := some 3, level := 1, total_core_xp := 0, avatar_url := none,
                   bio := none, timezone := "UTC", identity_locked_until := some 2592100,
                   onboarding_completed := true }]
    archetypes := [{ id := 2, name := "Explorer", description := none }]
    life_modes := [{ id := 3, name := "Growth", description := none }]
    life_areas := [{ id := 4, name := "Mind", emoji := none, description := none,
                     is_active := true }]
    user_life_areas := [{ id := 11, user_id := 1, life_area_id := 4, priority := 1,
                          selected_at := 100 }] }

/-- The response of the successful concrete onboarding run. -/
def resp8 : OnboardingResponse :=
  { profile := { id := 10, user_id := 1, player_name := "hero", archetype_id := some 2,
                 life_mode_id := some 3, level := 1, total_core_xp := 0, avatar_url := none,
                 bio := none, timezone := "UTC", identity_locked_until := some 2592100,
                 onboarding_completed := true }
    message := "Onboarding completed successfully! Your identity is locked for 30 days." }

/-- **C8 witness**: a second completion rejected on a concrete store, and
a concrete first-time completion setting the flag and the 30-day lock. -/
theorem C8_complete_onboarding_identity_lock_witness :
    (ProfileService.complete_onboarding PDB8a 1 data8 0 =
      .error (.ValidationError "Onboarding already completed")) ∧
    (resp8.profile.onboarding_completed = true ∧
     resp8.profile.identity_locked_until = some (100 + 30 * 86400) ∧
     ProfileRepository.get_by_user_id PDB8b' 1 = some resp8.profile) :=
  ⟨(C8_complete_onboarding_identity_lock PDB8a 1 data8 0 (by decide) (by decide)).1
      ⟨{ id := 1, user_id := 1, player_name := "hero", archetype_id := none,
         life_mode_id := none, level := 1, total_core_xp := 0, avatar_url := none,
         bio := none, timezone := "UTC", identity_locked_until := some 999,
         onboarding_completed := true }, by decide, rfl⟩,
   (C8_complete_onboarding_identity_lock PDB8b 1 data8 100 (by decide) (by decide)).2
      PDB8b' resp8 (by rfl)⟩

end LifeQuest
